import Mathlib

/-!
Shallow embedding of the outline-to-deck pipeline of the AutoPPT generator
(`src/app/api/generate-ppt/route.js`, the Express router), together with
theorems checking the natural-language specification against it.

Conventions of the embedding:
* JS `undefined`/missing fields are `Option.none`; JS string falsiness
  (`undefined` and `""`) is `jsTruthyStr`.
* Values that the untrusted LLM JSON may or may not provide as arrays are
  `JsArr` (an array, or some non-array value).
* JS exceptions are `Except` errors carrying the JS error's optional
  `status` field and its message.
* JS numbers in the color helper are exact rationals (`ℚ`); `Math.round`
  is `fun x => ⌊x + 1/2⌋`, which agrees with JS on all non-negative inputs.
-/

set_option linter.unusedVariables false

namespace AutoPPT

/-- JS truthiness of an optional string (`undefined` and `""` are falsy). -/
def jsTruthyStr : Option String → Bool
  | none => false
  | some s => s != ""

/-- JS `a || d` for an optional string `a` with default `d`. -/
def jsOrStr (a : Option String) (d : String) : String :=
  match a with
  | none => d
  | some s => if s = "" then d else s

/-- JS `String.prototype.trim`: strip leading and trailing whitespace
(`Char.isWhitespace` stands in for the JS whitespace class). -/
def jsTrim (s : String) : String :=
  String.mk (((s.data.dropWhile Char.isWhitespace).reverse.dropWhile
    Char.isWhitespace).reverse)

/-- A field that the parsed JSON may provide as an array or as anything else. -/
inductive JsArr (α : Type) where
  | arr (l : List α)
  | notArr
  deriving DecidableEq

/-- The `bulletPoints` field of a parsed slide: a string, an array, or
some other value (source checks `typeof === 'string'` / `Array.isArray`). -/
inductive BulletVal where
  | str (s : String)
  | arr (l : List String)
  | other
  deriving DecidableEq

/-- Unsplash attribution attached by image enrichment (route.js 251-254). -/
structure Attribution where
  photographer : String
  photoUrl : String
  deriving DecidableEq

/-- A slide's `image` field: `data`/`url` from enrichment, `dataUrl`-less
LLM-provided images carry only `url`/`idea` (route.js 309). -/
structure ImageVal where
  data : Option String
  url : Option String
  idea : Option String
  attribution : Option Attribution
  deriving DecidableEq

/-- A slide's `chart` field (route.js 311): `labels`/`values` may fail to
be arrays in the untrusted JSON. -/
structure ChartVal where
  ctype : Option String
  labels : JsArr String
  values : JsArr Int
  title : Option String
  deriving DecidableEq

/-- A slide's `table` field (route.js 310). -/
structure TableVal where
  headers : JsArr String
  rows : JsArr (List String)
  deriving DecidableEq

/-- One parsed slide object. -/
structure SlideRec where
  slideTitle : Option String
  bulletPoints : BulletVal
  layout : Option String
  visualHint : Option String
  image : Option ImageVal
  table : Option TableVal
  chart : Option ChartVal
  deriving DecidableEq

/-- One entry of the parsed `slides` array: a proper object, a non-null
primitive (property writes on it are silently ignored, and the assembler
skips it), or `null`/`undefined` (property access throws). -/
inductive SlideEntry where
  | obj (s : SlideRec)
  | prim
  | nullish
  deriving DecidableEq

/-- The `slides` field of the parsed outline: an array, absent (falsy:
`undefined`/`null`), or some truthy non-array value. -/
inductive SlidesVal where
  | arr (l : List SlideEntry)
  | absent
  | nonArray
  deriving DecidableEq

/-- The parsed top-level outline object. -/
structure Outline where
  title : Option String
  slides : SlidesVal
  deriving DecidableEq

/-! ## Outline Normalizer: bullet-point repair (route.js 365-376) -/

/-- The separator class of the split regex `/[\n•✓√\/;]+/`. -/
def isBulletSep (c : Char) : Bool :=
  c == '\n' || c == '•' || c == '✓' || c == '√' || c == '/' || c == ';'

/-- `.replace(/^\d+\.\s*/, '')`: strip one leading enumeration prefix. -/
def stripEnum (s : String) : String :=
  let cs := s.data
  let ds := cs.takeWhile Char.isDigit
  if ds.isEmpty then s
  else
    match cs.drop ds.length with
    | '.' :: rest => String.mk (rest.dropWhile Char.isWhitespace)
    | _ => s

/-- Split a concatenated bullet string on the separator class, trim and
strip each fragment, and drop empty fragments (`filter(Boolean)`).
(The JS regex split collapses runs of separators; the extra empty
fragments produced by the non-collapsing split are removed by the same
final filter, so the result coincides.) -/
def splitBullets (s : String) : List String :=
  ((s.split isBulletSep).map (fun f => stripEnum (jsTrim f))).filter (fun x => x != "")

/-- Per-slide repair of the `bulletPoints` field (route.js 367-375). -/
def repairBulletField : BulletVal → BulletVal
  | .str s => .arr (splitBullets s)
  | .arr l => .arr l
  | .other => .arr []

/-- Repair of one `slides` entry in the `forEach` loop: property access on
`null` throws a `TypeError`; on a non-null primitive the write is
silently ignored. -/
def repairEntry : SlideEntry → Except String SlideEntry
  | .obj s => .ok (.obj { s with bulletPoints := repairBulletField s.bulletPoints })
  | .prim => .ok .prim
  | .nullish => .error "TypeError: cannot read bulletPoints of null"

/-- The `parsed.slides.forEach(...)` bullet-repair loop; an exception from
one entry aborts the loop. -/
def repairSlides : List SlideEntry → Except String (List SlideEntry)
  | [] => .ok []
  | e :: rest =>
    match repairEntry e with
    | .error er => .error er
    | .ok e2 =>
      match repairSlides rest with
      | .error er => .error er
      | .ok r2 => .ok (e2 :: r2)

/-! ## Outline Normalizer: slide-count repair (route.js 343-363) -/

/-- The synthetic filler slide pushed when too few slides came back
(route.js 352-360). -/
def fillerSlide (topic : String) (n : Nat) : SlideRec :=
  { slideTitle := some ("Additional Content " ++ toString n)
    bulletPoints := .arr ["Key point about " ++ topic,
                          "Important information to consider",
                          "Relevant details for this topic"]
    layout := none
    visualHint := some (String.intercalate " " ((topic.splitOn " ").take 2))
    image := none
    table := none
    chart := none }

/-- The `while (parsed.slides.length < slideCount) parsed.slides.push(...)`
loop (route.js 351-361). -/
def pushFillers (slides : List SlideEntry) (slideCount : Nat) (topic : String) :
    List SlideEntry :=
  if h : slides.length < slideCount then
    pushFillers (slides ++ [SlideEntry.obj (fillerSlide topic (slides.length + 1))])
      slideCount topic
  else slides
termination_by slideCount - slides.length
decreasing_by simp [List.length_append]; omega

/-- The slide-count repair (route.js 343-363): truncate when too many,
push fillers when too few, leave alone when the count already matches. -/
def adjustSlideCount (slides : List SlideEntry) (slideCount : Nat) (topic : String) :
    List SlideEntry :=
  if slides.length ≠ slideCount then
    if slides.length > slideCount then slides.take slideCount
    else pushFillers slides slideCount topic
  else slides

/-- Closed form of the filler-pushing loop. -/
theorem pushFillers_spec (topic : String) :
    ∀ d slides slideCount, slideCount - slides.length ≤ d →
      pushFillers slides slideCount topic
        = slides ++ (List.range (slideCount - slides.length)).map
            (fun k => SlideEntry.obj (fillerSlide topic (slides.length + k + 1))) := by
  intro d
  induction d with
  | zero =>
    intro slides sc hd
    rw [pushFillers]
    have h2 : ¬ slides.length < sc := by omega
    have h0 : sc - slides.length = 0 := by omega
    simp [h2, h0]
  | succ d ih =>
    intro slides sc hd
    rw [pushFillers]
    by_cases hlt : slides.length < sc
    · simp only [hlt, dif_pos]
      rw [ih _ sc (by simp [List.length_append]; omega)]
      rw [show sc - slides.length = (sc - (slides.length + 1)) + 1 by omega,
          List.range_succ_eq_map, List.map_cons, List.map_map]
      simp only [List.length_append, List.length_cons, List.length_nil, List.append_assoc,
        List.singleton_append, Nat.add_zero, Nat.zero_add]
      congr 1
      congr 1
      apply List.map_congr_left
      intro k _
      simp only [Function.comp_apply, Nat.succ_eq_add_one]
      congr 2
      omega
    · have h0 : sc - slides.length = 0 := by omega
      simp [hlt, h0]

/-- Length and content of the count repair, via the closed form. -/
theorem adjustSlideCount_spec (slides : List SlideEntry) (N : Nat) (topic : String) :
    (adjustSlideCount slides N topic).length = N
    ∧ (N ≤ slides.length → adjustSlideCount slides N topic = slides.take N)
    ∧ (slides.length < N →
        adjustSlideCount slides N topic
          = slides ++ (List.range (N - slides.length)).map
              (fun k => SlideEntry.obj (fillerSlide topic (slides.length + k + 1)))) := by
  unfold adjustSlideCount
  rcases Nat.lt_trichotomy slides.length N with h | h | h
  · have hne : slides.length ≠ N := by omega
    have hgt : ¬ slides.length > N := by omega
    rw [if_pos hne, if_neg hgt,
        pushFillers_spec topic (N - slides.length) slides N (le_refl _)]
    exact ⟨by simp [List.length_append]; omega,
           fun hc => absurd hc (by omega), fun _ => rfl⟩
  · rw [if_neg (show ¬ slides.length ≠ N by omega)]
    refine ⟨h, fun _ => ?_, fun hc => absurd hc (by omega)⟩
    rw [← h, List.take_length]
  · have hne : slides.length ≠ N := by omega
    rw [if_pos hne, if_pos h]
    exact ⟨by simp [List.length_take]; omega,
           fun _ => rfl, fun hc => absurd hc (by omega)⟩

/-- C1: for every requested slide count N ∈ {3,5,7,10} and parsed slides
array of length 0..20, the count repair returns exactly N slides: the
first N when too many came back, the originals followed by synthetic
"Additional Content n" filler slides when too few; being a total
function, the repair never raises. -/
theorem C1_normalizer_count (N : Nat) (topic : String) (slides : List SlideEntry)
    (hN : N ∈ [3, 5, 7, 10]) (hlen : slides.length ≤ 20) :
    (adjustSlideCount slides N topic).length = N
    ∧ (N ≤ slides.length → adjustSlideCount slides N topic = slides.take N)
    ∧ (slides.length < N →
        adjustSlideCount slides N topic
          = slides ++ (List.range (N - slides.length)).map
              (fun k => SlideEntry.obj (fillerSlide topic (slides.length + k + 1))))
    ∧ (∀ n, (fillerSlide topic n).slideTitle
          = some ("Additional Content " ++ toString n)) :=
  ⟨(adjustSlideCount_spec slides N topic).1,
   (adjustSlideCount_spec slides N topic).2.1,
   (adjustSlideCount_spec slides N topic).2.2,
   fun _ => rfl⟩

/-- Witness for C1 at a concrete short input. -/
theorem C1_normalizer_count_witness :
    (3 : Nat) ∈ [3, 5, 7, 10]
    ∧ (adjustSlideCount [SlideEntry.prim] 3 "cats").length = 3 := by
  refine ⟨by decide, ?_⟩
  exact (C1_normalizer_count 3 "cats" [SlideEntry.prim] (by decide) (by decide)).1

/-- C7: bullet repair is idempotent and leaves arrays unchanged; a string
field is split on the fixed separator class, trimmed, enumeration-
stripped, and empties dropped; any other value becomes the empty array. -/
theorem C7_bullet_repair (b : BulletVal) (l : List String) (s : String)
    (hl : ∀ x ∈ l, x ≠ "") :
    repairBulletField (repairBulletField b) = repairBulletField b
    ∧ repairBulletField (.arr l) = .arr l
    ∧ repairBulletField (.str s)
        = .arr (((s.split isBulletSep).map (fun f => stripEnum (jsTrim f))).filter
            (fun x => x != ""))
    ∧ (∀ x ∈ splitBullets s, x ≠ "")
    ∧ repairBulletField .other = .arr [] := by
  refine ⟨?_, rfl, rfl, ?_, rfl⟩
  · cases b <;> rfl
  · intro x hx
    have := List.of_mem_filter hx
    simpa using this

/-- Witness for C7 at concrete inputs. -/
theorem C7_bullet_repair_witness :
    repairBulletField (repairBulletField (.str "a/b")) = repairBulletField (.str "a/b")
    ∧ repairBulletField (.arr ["x", "y"]) = .arr ["x", "y"] := by
  have h := C7_bullet_repair (.str "a/b") ["x", "y"] "a/b" (by decide)
  exact ⟨h.1, h.2.1⟩

/-! ## Outline generation: retry loop (route.js 326-401) -/

/-- A thrown JS error: the optional `status` field plus the message. -/
structure JsError where
  status : Option Nat
  msg : String
  deriving DecidableEq

/-- Result of extracting and parsing the JSON substring of one raw LLM
response text: the regex `/\{[\s\S]*\}/` found no object-shaped
substring, `JSON.parse` failed, or parsing produced an object. -/
inductive ParseResult where
  | noJson
  | badJson
  | parsed (p : Outline)
  deriving DecidableEq

/-- One attempt's interaction with the LLM collaborator: either
`generateContent` throws (with an optional HTTP status), or it returns
text whose JSON extraction has the given result. -/
inductive LlmAttempt where
  | errorResp (status : Option Nat) (msg : String)
  | textResp (parse : ParseResult)
  deriving DecidableEq

def noJsonMsg : String := "No JSON found in Gemini API response."

def parseFailMsg : String := "Failed to parse extracted JSON from Gemini response."

def maxRetriesMsg : String :=
  "Failed to generate presentation outline after maximum retries."

/-- `Failed to generate presentation outline: ${...}` (route.js 392/399). -/
def genErrMsg (m : String) : String :=
  "Failed to generate presentation outline: " ++ m

/-- The inner `try` body after a successful `JSON.parse` (route.js
343-378): slide-count repair, then the bullet-repair `forEach`, which
throws a `TypeError` when `slides` is not an array (absent slides skip
the count repair because of the `parsed.slides &&` guard). -/
def processParsed (p : Outline) (slideCount : Nat) (topic : String) :
    Except JsError Outline :=
  match p.slides with
  | .arr l =>
    ((repairSlides (adjustSlideCount l slideCount topic)).map
        (fun l2 => { title := p.title, slides := .arr l2 : Outline })).mapError
      (fun m => ⟨none, m⟩)
  | .absent => .error ⟨none, "TypeError: cannot read forEach of undefined"⟩
  | .nonArray => .error ⟨none, "TypeError: slides value has no forEach"⟩

/-- One iteration of the inner `try` (route.js 331-383), as the JS error
thrown or the outline returned: a collaborator throw propagates with its
status; text without a JSON-object substring throws `noJsonMsg`; any
throw from parsing or repair is converted to `parseFailMsg` by the catch
at route.js 379. -/
def tryBody (a : LlmAttempt) (slideCount : Nat) (topic : String) :
    Except JsError Outline :=
  match a with
  | .errorResp st m => .error ⟨st, m⟩
  | .textResp .noJson => .error ⟨none, noJsonMsg⟩
  | .textResp .badJson => .error ⟨none, parseFailMsg⟩
  | .textResp (.parsed p) =>
    (processParsed p slideCount topic).mapError (fun _ => ⟨none, parseFailMsg⟩)

/-- The retry loop (route.js 330-395): `responses i` is the collaborator's
behavior on attempt `i`. Returns the loop's outcome and the list of
backoff delays slept (in ms), mirroring `attempts`/`delay` and the
`error.status === 503 && attempts < maxAttempts` retry condition. -/
def outlineAttempts (responses : Nat → LlmAttempt) (slideCount : Nat) (topic : String)
    (attempts delay : Nat) : Except JsError Outline × List Nat :=
  if h : attempts < 3 then
    match tryBody (responses attempts) slideCount topic with
    | .ok o => (.ok o, [])
    | .error e =>
      if e.status = some 503 ∧ attempts + 1 < 3 then
        let rest := outlineAttempts responses slideCount topic (attempts + 1) (delay * 2)
        (rest.1, delay :: rest.2)
      else
        (.error ⟨none, genErrMsg e.msg⟩, [])
  else
    (.error ⟨none, maxRetriesMsg⟩, [])
termination_by 3 - attempts
decreasing_by omega

/-- `getPresentationOutline` (route.js 279-401): run the retry loop from
attempt 0 with initial delay 1000ms; the outer catch (route.js 397-400)
re-wraps the message of any error thrown out of the loop. -/
def getPresentationOutline (responses : Nat → LlmAttempt) (slideCount : Nat)
    (topic : String) : Except String Outline × List Nat :=
  let r := outlineAttempts responses slideCount topic 0 1000
  (match r.1 with
   | .ok o => .ok o
   | .error e => .error (genErrMsg e.msg), r.2)

theorem except_mapError_ok {α β γ : Type} (x : Except α β) (f : α → γ) (b : β) :
    x.mapError f = .ok b ↔ x = .ok b := by
  cases x <;> simp [Except.mapError]

theorem except_map_ok {α β γ : Type} (x : Except α β) (f : β → γ) (c : γ) :
    x.map f = .ok c ↔ ∃ b, x = .ok b ∧ f b = c := by
  cases x <;> simp [Except.map]

/-- A successful parse-and-repair always returns an outline whose
`slides` field is an array. -/
theorem processParsed_ok_slides_arr (p : Outline) (sc : Nat) (tp : String) (o : Outline)
    (h : processParsed p sc tp = .ok o) : ∃ l, o.slides = .arr l := by
  unfold processParsed at h
  cases hs : p.slides with
  | arr l =>
    rw [hs] at h
    rw [except_mapError_ok] at h
    rw [except_map_ok] at h
    obtain ⟨l2, _, hfo⟩ := h
    exact ⟨l2, by rw [← hfo]⟩
  | absent => rw [hs] at h; cases h
  | nonArray => rw [hs] at h; cases h

/-- A successful attempt body always returns an outline whose `slides`
field is an array. -/
theorem tryBody_ok_slides_arr (a : LlmAttempt) (sc : Nat) (tp : String) (o : Outline)
    (h : tryBody a sc tp = .ok o) : ∃ l, o.slides = .arr l := by
  cases a with
  | errorResp st m => cases h
  | textResp pr =>
    cases pr with
    | noJson => cases h
    | badJson => cases h
    | parsed p =>
      unfold tryBody at h
      rw [except_mapError_ok] at h
      exact processParsed_ok_slides_arr p sc tp o h

/-- Complete case analysis of the retry loop: the possible traces of
`getPresentationOutline` for an arbitrary collaborator. -/
theorem getPresentationOutline_cases (responses : Nat → LlmAttempt) (sc : Nat)
    (tp : String) :
    (∃ o, tryBody (responses 0) sc tp = .ok o
       ∧ getPresentationOutline responses sc tp = (.ok o, []))
    ∨ (∃ e, tryBody (responses 0) sc tp = .error e ∧ e.status ≠ some 503
       ∧ getPresentationOutline responses sc tp
           = (.error (genErrMsg (genErrMsg e.msg)), []))
    ∨ (∃ e, tryBody (responses 0) sc tp = .error e ∧ e.status = some 503
       ∧ ((∃ o, tryBody (responses 1) sc tp = .ok o
             ∧ getPresentationOutline responses sc tp = (.ok o, [1000]))
          ∨ (∃ e1, tryBody (responses 1) sc tp = .error e1 ∧ e1.status ≠ some 503
             ∧ getPresentationOutline responses sc tp
                 = (.error (genErrMsg (genErrMsg e1.msg)), [1000]))
          ∨ (∃ e1, tryBody (responses 1) sc tp = .error e1 ∧ e1.status = some 503
             ∧ ((∃ o, tryBody (responses 2) sc tp = .ok o
                   ∧ getPresentationOutline responses sc tp = (.ok o, [1000, 2000]))
                ∨ (∃ e2, tryBody (responses 2) sc tp = .error e2
                   ∧ getPresentationOutline responses sc tp
                       = (.error (genErrMsg (genErrMsg e2.msg)), [1000, 2000])))))) := by
  cases h0 : tryBody (responses 0) sc tp with
  | ok o =>
    exact Or.inl ⟨o, rfl, by simp [getPresentationOutline, outlineAttempts, h0]⟩
  | error e =>
    by_cases hs : e.status = some 503
    · refine Or.inr (Or.inr ⟨e, rfl, hs, ?_⟩)
      cases h1 : tryBody (responses 1) sc tp with
      | ok o1 =>
        exact Or.inl ⟨o1, rfl,
          by simp [getPresentationOutline, outlineAttempts, h0, h1, hs]⟩
      | error e1 =>
        by_cases hs1 : e1.status = some 503
        · refine Or.inr (Or.inr ⟨e1, rfl, hs1, ?_⟩)
          cases h2 : tryBody (responses 2) sc tp with
          | ok o2 =>
            exact Or.inl ⟨o2, rfl,
              by simp [getPresentationOutline, outlineAttempts, h0, h1, h2, hs, hs1]⟩
          | error e2 =>
            exact Or.inr ⟨e2, rfl,
              by simp [getPresentationOutline, outlineAttempts, h0, h1, h2, hs, hs1]⟩
        · exact Or.inr (Or.inl ⟨e1, rfl, hs1,
            by simp [getPresentationOutline, outlineAttempts, h0, h1, hs, hs1]⟩)
    · exact Or.inr (Or.inl ⟨e, rfl, hs,
        by simp [getPresentationOutline, outlineAttempts, h0, hs]⟩)

/-- C4: generation is retried only when an attempt fails with status 503,
with at most 3 attempts (hence at most two backoff sleeps, 1000ms then
2000ms); any non-503 failure of the first attempt propagates immediately,
with no sleeps, as a generation error wrapping the underlying message. -/
theorem C4_retry_policy (responses : Nat → LlmAttempt) (sc : Nat) (tp : String) :
    ((getPresentationOutline responses sc tp).2.length ≤ 2
      ∧ (getPresentationOutline responses sc tp).2
          = List.take (getPresentationOutline responses sc tp).2.length [1000, 2000])
    ∧ (∀ k, k < (getPresentationOutline responses sc tp).2.length →
        ∃ m, tryBody (responses k) sc tp = .error ⟨some 503, m⟩)
    ∧ (∀ st m, tryBody (responses 0) sc tp = .error ⟨st, m⟩ → st ≠ some 503 →
        getPresentationOutline responses sc tp
          = (.error (genErrMsg (genErrMsg m)), [])) := by
  have h503 : ∀ (e : JsError) (k : Nat), tryBody (responses k) sc tp = .error e →
      e.status = some 503 → ∃ m, tryBody (responses k) sc tp = .error ⟨some 503, m⟩ := by
    intro e k hk hst
    refine ⟨e.msg, ?_⟩
    rw [hk]
    cases e
    simp only at hst
    rw [hst]
  have hfirst : ∀ (e : JsError), tryBody (responses 0) sc tp = .error e →
      e.status = some 503 →
      ∀ st m, tryBody (responses 0) sc tp = .error ⟨st, m⟩ → st ≠ some 503 → False := by
    intro e h0 hs st m hm hne
    rw [h0] at hm
    cases hm
    exact hne hs
  rcases getPresentationOutline_cases responses sc tp with
    ⟨o, h0, hg⟩ | ⟨e, h0, hs, hg⟩ | ⟨e, h0, hs, hrest⟩
  · rw [hg]
    refine ⟨⟨by simp, by simp⟩, fun k hk => absurd hk (by simp), ?_⟩
    intro st m hm _
    rw [h0] at hm
    cases hm
  · rw [hg]
    refine ⟨⟨by simp, by simp⟩, fun k hk => absurd hk (by simp), ?_⟩
    intro st m hm hne
    rw [h0] at hm
    cases hm
    rfl
  · rcases hrest with ⟨o1, h1, hg⟩ | ⟨e1, h1, hs1, hg⟩ | ⟨e1, h1, hs1, hin⟩
    · rw [hg]
      refine ⟨⟨by simp, by simp⟩, ?_, ?_⟩
      · intro k hk
        simp only [List.length_cons, List.length_nil] at hk
        interval_cases k
        exact h503 e 0 h0 hs
      · intro st m hm hne
        exact absurd hs (by rw [h0] at hm; cases hm; exact hne)
    · rw [hg]
      refine ⟨⟨by simp, by simp⟩, ?_, ?_⟩
      · intro k hk
        simp only [List.length_cons, List.length_nil] at hk
        interval_cases k
        exact h503 e 0 h0 hs
      · intro st m hm hne
        exact absurd hs (by rw [h0] at hm; cases hm; exact hne)
    · rcases hin with ⟨o2, h2, hg⟩ | ⟨e2, h2, hg⟩ <;>
      · rw [hg]
        refine ⟨⟨by simp, by simp⟩, ?_, ?_⟩
        · intro k hk
          simp only [List.length_cons, List.length_nil] at hk
          interval_cases k
          · exact h503 e 0 h0 hs
          · exact h503 e1 1 h1 hs1
        · intro st m hm hne
          exact absurd hs (by rw [h0] at hm; cases hm; exact hne)

/-- Witness for C4: a first-attempt non-overload failure propagates at
once, wrapped, with no retries. -/
theorem C4_retry_policy_witness :
    getPresentationOutline (fun _ => LlmAttempt.errorResp none "boom") 5 "t"
      = (.error (genErrMsg (genErrMsg "boom")), []) :=
  (C4_retry_policy (fun _ => LlmAttempt.errorResp none "boom") 5 "t").2.2 none "boom"
    rfl (by simp)

/-! ## Visual enrichment (route.js 404-424) -/

/-- A non-null result of `fetchImageFromUnsplash` (route.js 248-255). -/
structure ImageData where
  data : String
  url : String
  photographer : String
  photoUrl : String
  deriving DecidableEq

/-- Behavior of the image-search collaborator for one slide: a non-null
image, a null result (no image found / key missing), or a thrown error. -/
inductive FetchOutcome where
  | ok (img : ImageData)
  | noResult
  | err (msg : String)
  deriving DecidableEq

/-- `enhanceSlideWithImage` (route.js 404-424): no-op without a truthy
`visualHint`; on a fetched image, set only the `image` field; a null
result or a thrown fetch error leaves the slide unchanged (the catch at
route.js 419 only warns). -/
def enhanceSlideWithImage (slide : SlideRec) (fetch : FetchOutcome) : SlideRec :=
  if jsTruthyStr slide.visualHint then
    match fetch with
    | .ok img =>
      { slide with image := some { data := some img.data, url := some img.url,
                                   idea := none,
                                   attribution := some ⟨img.photographer, img.photoUrl⟩ } }
    | .noResult => slide
    | .err _ => slide
  else slide

/-- C3: enrichment is a no-op without a `visualHint`; any fetch failure
(thrown error or empty result) returns the slide with every field
unmodified and, being a total function, never raises; on success only
the `image` field changes, to the fetched `{data, url, attribution}`. -/
theorem C3_enrichment (slide : SlideRec) (f : FetchOutcome) :
    (slide.visualHint = none → enhanceSlideWithImage slide f = slide)
    ∧ (∀ m, f = .err m → enhanceSlideWithImage slide f = slide)
    ∧ (f = .noResult → enhanceSlideWithImage slide f = slide)
    ∧ (∀ img, f = .ok img → jsTruthyStr slide.visualHint = true →
        enhanceSlideWithImage slide f
          = { slide with
                image := some { data := some img.data, url := some img.url,
                                idea := none,
                                attribution := some ⟨img.photographer, img.photoUrl⟩ } }) := by
  refine ⟨?_, ?_, ?_, ?_⟩
  · intro h
    simp [enhanceSlideWithImage, h, jsTruthyStr]
  · intro m hf
    subst hf
    cases h : jsTruthyStr slide.visualHint <;> simp [enhanceSlideWithImage, h]
  · intro hf
    subst hf
    cases h : jsTruthyStr slide.visualHint <;> simp [enhanceSlideWithImage, h]
  · intro img hf ht
    subst hf
    simp [enhanceSlideWithImage, ht]

/-- Witness for C3 at a concrete slide and fetch result. -/
theorem C3_enrichment_witness :
    enhanceSlideWithImage
        ⟨some "T", .arr ["a"], none, some "tech", none, none, none⟩
        (.ok ⟨"d", "u", "p", "l"⟩)
      = ⟨some "T", .arr ["a"], none, some "tech",
         some ⟨some "d", some "u", none, some ⟨"p", "l"⟩⟩, none, none⟩ := by
  exact (C3_enrichment ⟨some "T", .arr ["a"], none, some "tech", none, none, none⟩
    (.ok ⟨"d", "u", "p", "l"⟩)).2.2.2 ⟨"d", "u", "p", "l"⟩ rfl (by decide)

/-! ## Theme Resolver and color helpers (route.js 474-508) -/

/-- A named 4-color palette. -/
structure Theme where
  background : String
  title : String
  text : String
  accent : String
  deriving DecidableEq

def blueTheme : Theme := ⟨"1E3A8A", "FFFFFF", "1F2937", "3B82F6"⟩

/-- The fixed theme table (route.js 474-482). -/
def colorThemes : List (String × Theme) :=
  [("blue", blueTheme),
   ("green", ⟨"166534", "FFFFFF", "1F2937", "22C55E"⟩),
   ("purple", ⟨"7C3AED", "FFFFFF", "1F2937", "A855F7"⟩),
   ("red", ⟨"DC2626", "FFFFFF", "1F2937", "EF4444"⟩),
   ("orange", ⟨"EA580C", "FFFFFF", "1F2937", "F97316"⟩),
   ("teal", ⟨"0F766E", "FFFFFF", "1F2937", "14B8A6"⟩),
   ("gray", ⟨"4B5563", "FFFFFF", "1F2937", "6B7280"⟩)]

/-- `colorThemes[options.colorTheme] || colorThemes.blue` (route.js 484). -/
def resolveTheme (name : String) : Theme :=
  (colorThemes.lookup name).getD blueTheme

/-- Numeric value of one hex digit, as `parseInt(_, 16)` reads it. -/
def hexVal (c : Char) : Nat :=
  if c.isDigit then c.toNat - 48
  else if 'a' ≤ c ∧ c ≤ 'f' then c.toNat - 87
  else if 'A' ≤ c ∧ c ≤ 'F' then c.toNat - 55
  else 0

/-- `hex.replace('#', '')`: JS `replace` with a string pattern removes
only the first occurrence. -/
def removeFirstHash : List Char → List Char
  | [] => []
  | c :: r => if c = '#' then r else c :: removeFirstHash r

/-- `parseInt(clean, 16)` on a hex-digit string. -/
def parseHexNat (s : String) : Nat :=
  (removeFirstHash s.data).foldl (fun a c => a * 16 + hexVal c) 0

/-- `hexToRgb` (route.js 489-497): `(n >> 16) & 255`, `(n >> 8) & 255`,
`n & 255`, written with division and remainder (equal on the values a
6-digit hex color produces). -/
def hexToRgb (s : String) : Nat × Nat × Nat :=
  let n := parseHexNat s
  (n / 65536 % 256, n / 256 % 256, n % 256)

/-- `Math.max(0, Math.min(255, v))` (route.js 498). -/
def clampJs (v : Int) : Int := max 0 (min 255 v)

/-- `Math.round` on the non-negative channel values: `⌊x + 1/2⌋`. -/
def roundJs (x : ℚ) : Int := Int.floor (x + 1/2)

/-- One channel of `lighten`: `clamp(Math.round(c + (255 - c) * pct))`. -/
def lightenChannel (c : Nat) (p : ℚ) : Nat :=
  (clampJs (roundJs ((c : ℚ) + ((255 : ℚ) - (c : ℚ)) * p))).toNat

/-- Uppercase hex digit, as `toString(16)` plus the final `.toUpperCase()`
produce. -/
def hexDigitChar (n : Nat) : Char :=
  "0123456789ABCDEF".data.getD n 'X'

/-- `c.toString(16).padStart(2, '0')` (uppercased) for `c ≤ 255`. -/
def toHex2 (c : Nat) : String :=
  String.mk [hexDigitChar (c / 16), hexDigitChar (c % 16)]

/-- `lighten` (route.js 499-508). -/
def lighten (hex : String) (pct : ℚ) : String :=
  toHex2 (lightenChannel (hexToRgb hex).1 pct)
    ++ toHex2 (lightenChannel (hexToRgb hex).2.1 pct)
    ++ toHex2 (lightenChannel (hexToRgb hex).2.2 pct)

theorem clampJs_toNat_le (v : Int) : (clampJs v).toNat ≤ 255 := by
  unfold clampJs
  omega

theorem lightenChannel_le (c : Nat) (p : ℚ) : lightenChannel c p ≤ 255 :=
  clampJs_toNat_le _

theorem floor_half : (⌊(1/2 : ℚ)⌋ : ℤ) = 0 := by
  rw [Int.floor_eq_zero_iff, Set.mem_Ico]
  norm_num

theorem lightenChannel_zero (c : Nat) (hc : c ≤ 255) : lightenChannel c 0 = c := by
  unfold lightenChannel roundJs clampJs
  rw [show ((c : ℚ) + ((255 : ℚ) - (c : ℚ)) * 0) = (c : ℚ) by ring,
      show ((c : ℚ) + 1/2) = ((c : ℤ) : ℚ) + 1/2 by push_cast; ring,
      Int.floor_int_add, floor_half]
  omega

theorem lightenChannel_one (c : Nat) : lightenChannel c 1 = 255 := by
  unfold lightenChannel roundJs clampJs
  rw [show ((c : ℚ) + ((255 : ℚ) - (c : ℚ)) * 1) = (((255 : ℤ) : ℚ)) by push_cast; ring,
      show (((255 : ℤ) : ℚ) + 1/2) = ((255 : ℤ) : ℚ) + 1/2 from rfl,
      Int.floor_int_add, floor_half]
  omega

theorem hexToRgb_le (s : String) :
    (hexToRgb s).1 ≤ 255 ∧ (hexToRgb s).2.1 ≤ 255 ∧ (hexToRgb s).2.2 ≤ 255 := by
  refine ⟨?_, ?_, ?_⟩
  · show _ % 256 ≤ 255
    omega
  · show _ % 256 ≤ 255
    omega
  · show _ % 256 ≤ 255
    omega

/-- `lighten(c, 1)` is white, for any input color. -/
theorem lighten_one (s : String) : lighten s 1 = "FFFFFF" := by
  unfold lighten
  rw [lightenChannel_one, lightenChannel_one, lightenChannel_one]
  rfl

def upperHexDigits : List Char := "0123456789ABCDEF".data

/-- A 6-character uppercase hex color (no `#`). -/
def IsUpperHex6 (s : String) : Prop :=
  s.data.length = 6 ∧ ∀ c ∈ s.data, c ∈ upperHexDigits

instance (s : String) : Decidable (IsUpperHex6 s) := by
  unfold IsUpperHex6
  infer_instance

theorem hexDigitChar_hexVal (c : Char) (h : c ∈ upperHexDigits) :
    hexDigitChar (hexVal c) = c := by
  fin_cases h <;> rfl

theorem hexVal_lt (c : Char) (h : c ∈ upperHexDigits) : hexVal c < 16 := by
  fin_cases h <;> decide

theorem removeFirstHash_eq (l : List Char) (h : '#' ∉ l) : removeFirstHash l = l := by
  induction l with
  | nil => rfl
  | cons c r ih =>
    simp only [List.mem_cons, not_or] at h
    simp only [removeFirstHash]
    rw [if_neg (fun hc => h.1 hc.symm), ih h.2]

theorem list_len6 {α : Type} (l : List α) (h : l.length = 6) :
    ∃ a b c d e f, l = [a, b, c, d, e, f] := by
  rcases l with _ | ⟨a, l⟩
  · simp at h
  rcases l with _ | ⟨b, l⟩
  · simp at h
  rcases l with _ | ⟨c, l⟩
  · simp at h
  rcases l with _ | ⟨d, l⟩
  · simp at h
  rcases l with _ | ⟨e, l⟩
  · simp at h
  rcases l with _ | ⟨f, l⟩
  · simp at h
  rcases l with _ | ⟨g, l⟩
  · exact ⟨a, b, c, d, e, f, rfl⟩
  · simp at h

theorem toHex2_digits (a b : Char) (ha : a ∈ upperHexDigits) (hb : b ∈ upperHexDigits) :
    toHex2 (hexVal a * 16 + hexVal b) = String.mk [a, b] := by
  unfold toHex2
  have hva := hexVal_lt a ha
  have hvb := hexVal_lt b hb
  have h1 : (hexVal a * 16 + hexVal b) / 16 = hexVal a := by omega
  have h2 : (hexVal a * 16 + hexVal b) % 16 = hexVal b := by omega
  rw [h1, h2, hexDigitChar_hexVal a ha, hexDigitChar_hexVal b hb]

/-- `lighten(c, 0)` reproduces an uppercase 6-hex color verbatim. -/
theorem lighten_zero_eq (s : String) (h : IsUpperHex6 s) : lighten s 0 = s := by
  obtain ⟨sd⟩ := s
  obtain ⟨hlen, hmem⟩ := h
  obtain ⟨c1, c2, c3, c4, c5, c6, hs⟩ := list_len6 sd hlen
  subst hs
  have hm1 : c1 ∈ upperHexDigits := hmem c1 (by simp)
  have hm2 : c2 ∈ upperHexDigits := hmem c2 (by simp)
  have hm3 : c3 ∈ upperHexDigits := hmem c3 (by simp)
  have hm4 : c4 ∈ upperHexDigits := hmem c4 (by simp)
  have hm5 : c5 ∈ upperHexDigits := hmem c5 (by simp)
  have hm6 : c6 ∈ upperHexDigits := hmem c6 (by simp)
  have hv1 := hexVal_lt c1 hm1
  have hv2 := hexVal_lt c2 hm2
  have hv3 := hexVal_lt c3 hm3
  have hv4 := hexVal_lt c4 hm4
  have hv5 := hexVal_lt c5 hm5
  have hv6 := hexVal_lt c6 hm6
  have hnh : removeFirstHash [c1, c2, c3, c4, c5, c6] = [c1, c2, c3, c4, c5, c6] := by
    apply removeFirstHash_eq
    intro hmm
    exact absurd (hmem '#' hmm) (by decide)
  have hr : (hexToRgb ⟨[c1, c2, c3, c4, c5, c6]⟩).1 = hexVal c1 * 16 + hexVal c2
      ∧ (hexToRgb ⟨[c1, c2, c3, c4, c5, c6]⟩).2.1 = hexVal c3 * 16 + hexVal c4
      ∧ (hexToRgb ⟨[c1, c2, c3, c4, c5, c6]⟩).2.2 = hexVal c5 * 16 + hexVal c6 := by
    unfold hexToRgb parseHexNat
    rw [show (String.mk [c1, c2, c3, c4, c5, c6]).data = [c1, c2, c3, c4, c5, c6] from rfl,
        hnh]
    simp only [List.foldl]
    refine ⟨?_, ?_, ?_⟩ <;> omega
  unfold lighten
  rw [hr.1, hr.2.1, hr.2.2,
      lightenChannel_zero _ (by omega), lightenChannel_zero _ (by omega),
      lightenChannel_zero _ (by omega),
      toHex2_digits c1 c2 hm1 hm2, toHex2_digits c3 c4 hm3 hm4, toHex2_digits c5 c6 hm5 hm6]
  rfl

/-- C8 counterexample: on a lowercase 6-hex color, `lighten(c, 0)` does
not return `c` unchanged — the output is uppercased. -/
theorem C8_counterexample :
    lighten "abcdef" 0 = "ABCDEF" ∧ "ABCDEF" ≠ "abcdef" := by
  constructor
  · have h : hexToRgb "abcdef" = (171, 205, 239) := by decide
    unfold lighten
    rw [h]
    show toHex2 (lightenChannel 171 0) ++ toHex2 (lightenChannel 205 0)
        ++ toHex2 (lightenChannel 239 0) = "ABCDEF"
    rw [lightenChannel_zero 171 (by omega), lightenChannel_zero 205 (by omega),
        lightenChannel_zero 239 (by omega)]
    rfl
  · decide

/-- C8 (amended): each output channel is the affine interpolation toward
white, rounded and clamped to [0,255]; `lighten(c, 0)` returns the
uppercase rendering of `c` — `c` itself whenever `c` uses uppercase
digits; `lighten(c, 1)` is white; output channels always lie in [0,255]. -/
theorem C8_lighten (c : String) (p : ℚ) (hc : IsUpperHex6 c) :
    lighten c 0 = c
    ∧ lighten c 1 = "FFFFFF"
    ∧ (∀ ch : Nat, lightenChannel ch p ≤ 255)
    ∧ (hexToRgb c).1 ≤ 255 ∧ (hexToRgb c).2.1 ≤ 255 ∧ (hexToRgb c).2.2 ≤ 255 :=
  ⟨lighten_zero_eq c hc, lighten_one c, fun ch => lightenChannel_le ch p,
   (hexToRgb_le c).1, (hexToRgb_le c).2.1, (hexToRgb_le c).2.2⟩

/-- Witness for C8 at a concrete theme color and fraction. -/
theorem C8_lighten_witness :
    lighten "1E3A8A" 0 = "1E3A8A" ∧ lighten "1E3A8A" 1 = "FFFFFF" := by
  have h := C8_lighten "1E3A8A" (1/2) (by decide)
  exact ⟨h.1, h.2.1⟩

/-! ## Layout Selector (route.js 510-511) -/

/-- The seven known layout names (route.js 510). -/
def layouts : List String :=
  ["title-bullets", "two-column", "quote", "section-divider", "checklist", "numbers",
   "image-left"]

/-- `pickLayout` (route.js 511): a truthy requested name among the seven
known layouts wins; otherwise round-robin by slide index. -/
def pickLayout (idx : Nat) (provided : Option String) : String :=
  match provided with
  | some p => if p ≠ "" ∧ p ∈ layouts then p else layouts.getD (idx % layouts.length) ""
  | none => layouts.getD (idx % layouts.length) ""

/-- C6: a known requested layout is returned verbatim; otherwise the
selector returns `layouts[i mod 7]`, and any seven consecutive indices
produce all seven layouts (a permutation); the function is pure, so
determinism is immediate. -/
theorem C6_layout_selector (i : Nat) :
    (∀ p, p ∈ layouts → p ≠ "" → pickLayout i (some p) = p)
    ∧ (∀ p : Option String, (∀ q, p = some q → q = "" ∨ q ∉ layouts) →
        pickLayout i p = layouts.getD (i % 7) "")
    ∧ ((List.range 7).map (fun k => pickLayout (i + k) none)).Perm layouts := by
  refine ⟨?_, ?_, ?_⟩
  · intro p hp hne
    simp [pickLayout, hp, hne]
  · intro p hp
    cases p with
    | none => rfl
    | some q =>
      have hcond : ¬ (q ≠ "" ∧ q ∈ layouts) := by
        rcases hp q rfl with h | h
        · intro hc; exact hc.1 h
        · intro hc; exact h hc.2
      show (if q ≠ "" ∧ q ∈ layouts then q else layouts.getD (i % layouts.length) "")
          = layouts.getD (i % 7) ""
      rw [if_neg hcond, show layouts.length = 7 from rfl]
  · have hmod : ∀ k, pickLayout (i + k) none = layouts.getD ((i % 7 + k) % 7) "" := by
      intro k
      show layouts.getD ((i + k) % layouts.length) "" = layouts.getD ((i % 7 + k) % 7) ""
      congr 1
      show (i + k) % 7 = (i % 7 + k) % 7
      omega
    have hmap : (List.range 7).map (fun k => pickLayout (i + k) none)
        = (List.range 7).map (fun k => layouts.getD ((i % 7 + k) % 7) "") :=
      List.map_congr_left (fun k _ => hmod k)
    rw [hmap]
    have hr : i % 7 < 7 := Nat.mod_lt _ (by norm_num)
    generalize hg : i % 7 = r at hr hmap ⊢
    interval_cases r <;> decide

/-- Witness for C6 at concrete inputs. -/
theorem C6_layout_selector_witness :
    pickLayout 0 (some "quote") = "quote"
    ∧ pickLayout 3 none = layouts.getD (3 % 7) "" := by
  refine ⟨(C6_layout_selector 0).1 "quote" (by decide) (by decide), ?_⟩
  exact (C6_layout_selector 3).2.1 none (fun q hq => by cases hq)

/-! ## Slide rendering and deck assembly (route.js 513-731) -/

/-- The chart datum handed to `addChart` (route.js 581). -/
structure RenderedChart where
  name : String
  ctype : String
  labels : List String
  values : List Int
  deriving DecidableEq

/-- One drawing element of a built slide, in `add*` call order.
Geometry options are omitted; text keeps content, color, font size and
boldness. -/
inductive Elem where
  | text (content : String) (color : String) (fontSize : Nat) (bold : Bool)
  | shape (fillColor : String)
  | image (data : String)
  | chartEl (c : RenderedChart)
  | tableEl (rows : List (List String))
  deriving DecidableEq

/-- One slide of the assembled document. -/
structure BuiltSlide where
  background : String
  elems : List Elem
  deriving DecidableEq

/-- `(chart.type && typeMap[chart.type]) || 'bar'` (route.js 578-579). -/
def chartTypeOf (t : Option String) : String :=
  match t with
  | some s => if s = "bar" ∨ s = "line" ∨ s = "pie" then s else "bar"
  | none => "bar"

/-- `renderChart` (route.js 574-589): `none` models `return false`
(nothing drawn, fallback continues); otherwise the datum passed to
`addChart`, with `labels.slice(0, n)` and `values.slice(0, n)` for
`n = min(labels.length, values.length)` (the `addChart` call itself is
modelled as succeeding). -/
def renderChart (chart : Option ChartVal) : Option RenderedChart :=
  match chart with
  | none => none
  | some c =>
    match c.labels, c.values with
    | .arr ls, .arr vs =>
      if min ls.length vs.length = 0 then none
      else some { name := jsOrStr c.title "Series", ctype := chartTypeOf c.ctype,
                  labels := ls.take (min ls.length vs.length),
                  values := vs.take (min ls.length vs.length) }
    | _, _ => none

/-- `renderTable` (route.js 591-608): `none` models `return false`;
otherwise the `[headers, ...rows]` matrix passed to `addTable`, headers
capped at 6, rows capped at 6 and each row capped to the header count. -/
def renderTable (table : Option TableVal) : Option (List (List String)) :=
  match table with
  | none => none
  | some t =>
    match t.headers, t.rows with
    | .arr hs, .arr rs =>
      some ((hs.take 6) :: (rs.take 6).map (fun r => r.take (hs.take 6).length))
    | _, _ => none

/-- The placeholder block drawn when an image has no byte payload
(route.js 552-569). -/
def placeholderElems (th : Theme) (img : ImageVal) : List Elem :=
  [Elem.shape (lighten th.background (6/10)),
   Elem.text (jsOrStr img.idea "Image placeholder") th.background 12 false]

/-- `renderImage` (route.js 518-571): `none` models `return false`; with
truthy image data an image element (a data-URL header is prepended when
missing); otherwise the placeholder block. -/
def renderImage (th : Theme) (image : Option ImageVal) : Option (List Elem) :=
  match image with
  | none => none
  | some img =>
    match img.data with
    | some d =>
      if d ≠ "" then
        some [Elem.image (if d.startsWith "data:" then d
                          else "data:image/jpeg;base64," ++ d)]
      else some (placeholderElems th img)
    | none => some (placeholderElems th img)

/-- `bullets.map(t => '• ' + t).join('\n')`. -/
def joinBullets (l : List String) : String :=
  String.intercalate "\n" (l.map (fun t => "• " ++ t))

/-- The five rotating slide backgrounds (route.js 612-618). -/
def bgVariants (th : Theme) : List String :=
  ["FFFFFF", lighten th.accent (85/100), lighten th.accent (92/100),
   lighten th.background (95/100), lighten th.accent (8/10)]

/-- `addContentSlide` (route.js 610-698): the background color and the
ordered drawing elements of the produced slide, per selected layout,
including each layout's fallback chain over table/chart/image. -/
def addContentSlide (th : Theme) (sd : SlideRec) (idx : Nat) : BuiltSlide :=
  let layout := pickLayout idx sd.layout
  let bg := (bgVariants th).getD (idx % (bgVariants th).length) "FFFFFF"
  let titleColor := th.background
  let textColor := th.text
  let title := jsOrStr sd.slideTitle "Untitled Slide"
  let bullets := match sd.bulletPoints with
    | .arr l => l.filter (fun x => x != "")
    | _ => []
  let body : List Elem :=
    if layout = "two-column" then
      let mid := max ((bullets.length + 1) / 2) 1
      [Elem.text title titleColor 28 true,
       Elem.text (joinBullets (bullets.take mid)) textColor 16 false]
      ++ (match renderTable sd.table with
          | some rows => [Elem.tableEl rows]
          | none =>
            match renderChart sd.chart with
            | some rc => [Elem.chartEl rc]
            | none => [Elem.text (joinBullets (bullets.drop mid)) textColor 16 false])
    else if layout = "quote" then
      let quote := bullets.getD 0 "Insightful quote or key takeaway goes here."
      let rest := bullets.drop 1
      [Elem.text title textColor 24 true,
       Elem.text ("\"" ++ quote ++ "\"") titleColor 28 false]
      ++ (if rest.length ≠ 0 then [Elem.text (joinBullets rest) textColor 14 false] else [])
      ++ (match renderTable sd.table with
          | some rows => [Elem.tableEl rows]
          | none =>
            match renderChart sd.chart with
            | some rc => [Elem.chartEl rc]
            | none => (renderImage th sd.image).getD [])
    else if layout = "section-divider" then
      [Elem.shape th.accent, Elem.text title "FFFFFF" 36 true]
    else if layout = "checklist" then
      let items := if bullets.isEmpty then ["First task", "Second task"] else bullets
      [Elem.text title titleColor 28 true,
       Elem.text (String.intercalate "\n" (items.map (fun t => "✓ " ++ t)))
         textColor 16 false]
      ++ (match renderChart sd.chart with
          | some rc => [Elem.chartEl rc]
          | none =>
            match renderTable sd.table with
            | some rows => [Elem.tableEl rows]
            | none => [])
    else if layout = "numbers" then
      let items := if bullets.isEmpty then ["Point one", "Point two"] else bullets
      [Elem.text title titleColor 28 true,
       Elem.text (String.intercalate "\n"
           (items.enum.map (fun p => toString (p.1 + 1) ++ ". " ++ p.2)))
         textColor 16 false]
      ++ (match renderChart sd.chart with
          | some rc => [Elem.chartEl rc]
          | none =>
            match renderTable sd.table with
            | some rows => [Elem.tableEl rows]
            | none => [])
    else if layout = "image-left" then
      ((renderImage th sd.image).getD [])
      ++ [Elem.text title titleColor 28 true,
          Elem.text (joinBullets bullets) textColor 16 false]
    else
      [Elem.text title titleColor 28 true,
       Elem.text (joinBullets bullets) textColor 16 false]
      ++ ((renderImage th sd.image).getD [])
      ++ (match renderChart sd.chart with
          | some rc => [Elem.chartEl rc]
          | none =>
            match renderTable sd.table with
            | some rows => [Elem.tableEl rows]
            | none => [])
  { background := bg, elems := Elem.shape th.accent :: body }

/-- The always-present title slide (route.js 702-711). -/
def mkTitleSlide (o : Outline) (topic : String) (th : Theme) : BuiltSlide :=
  { background := th.background,
    elems := [Elem.text (jsOrStr o.title topic) th.title 36 true,
              Elem.text ("Presentation on " ++ topic) th.title 24 false] }

/-- The fallback slide drawn when the outline has no slides array
(route.js 721-727). -/
def errorSlide : BuiltSlide :=
  { background := "FFFFFF",
    elems := [Elem.text "Error: No content generated" "FF0000" 24 true] }

/-- The `outline.slides.forEach` content loop (route.js 714-719):
non-object entries are skipped but still advance the index. -/
def contentSlidesFrom (th : Theme) : List SlideEntry → Nat → List BuiltSlide
  | [], _ => []
  | e :: rest, i =>
    match e with
    | .obj s => addContentSlide th s i :: contentSlidesFrom th rest (i + 1)
    | _ => contentSlidesFrom th rest (i + 1)

def contentSlides (l : List SlideEntry) (th : Theme) : List BuiltSlide :=
  contentSlidesFrom th l 0

/-- Deck assembly (route.js 700-728): the title slide first, then either
the content slides or the single fallback error slide. -/
def assembleDeck (o : Outline) (topic : String) (th : Theme) : List BuiltSlide :=
  mkTitleSlide o topic th ::
    (match o.slides with
     | .arr l => contentSlides l th
     | _ => [errorSlide])

/-- A chart with 7 labels and 7 values. -/
def chart7 : ChartVal :=
  { ctype := some "bar",
    labels := .arr ["a", "b", "c", "d", "e", "f", "g"],
    values := .arr [1, 2, 3, 4, 5, 6, 7],
    title := none }

/-- C2 counterexample: `renderChart` does not cap the usable element
count at 6 — with 7 labels and 7 values it renders all 7 pairs, not
`min(min(7,7), 6) = 6`. -/
theorem C2_counterexample :
    ((renderChart (some chart7)).map (fun r => r.labels.length) = some 7)
    ∧ (7 : Nat) ≠ min (min 7 7) 6 := by
  exact ⟨rfl, by decide⟩

/-- C2 (amended): the rendered pair count equals
`min(labels.length, values.length)`, with no cap at 6; a chart whose
label or value field is not an array, or whose minimum is 0, is treated
as absent: `renderChart` draws nothing and reports failure, so the
slide's fallback chain continues. -/
theorem C2_chart_pairs (c : ChartVal) (ls : List String) (vs : List Int)
    (hl : c.labels = .arr ls) (hv : c.values = .arr vs) :
    (0 < min ls.length vs.length →
       ∃ r, renderChart (some c) = some r
         ∧ r.labels = ls.take (min ls.length vs.length)
         ∧ r.values = vs.take (min ls.length vs.length)
         ∧ r.labels.length = min ls.length vs.length
         ∧ r.values.length = min ls.length vs.length)
    ∧ (min ls.length vs.length = 0 → renderChart (some c) = none)
    ∧ (∀ c2 : ChartVal, (c2.labels = .notArr ∨ c2.values = .notArr) →
        renderChart (some c2) = none)
    ∧ renderChart none = none := by
  have key : ∀ cc : ChartVal, renderChart (some cc)
      = (match cc.labels, cc.values with
         | JsArr.arr ls2, JsArr.arr vs2 =>
           if min ls2.length vs2.length = 0 then none
           else some { name := jsOrStr cc.title "Series", ctype := chartTypeOf cc.ctype,
                       labels := ls2.take (min ls2.length vs2.length),
                       values := vs2.take (min ls2.length vs2.length) }
         | _, _ => none) := fun _ => rfl
  refine ⟨?_, ?_, ?_, rfl⟩
  · intro hpos
    have heq : renderChart (some c)
        = some { name := jsOrStr c.title "Series", ctype := chartTypeOf c.ctype,
                 labels := ls.take (min ls.length vs.length),
                 values := vs.take (min ls.length vs.length) } := by
      rw [key c, hl, hv]
      show (if min ls.length vs.length = 0 then none else some _) = some _
      rw [if_neg (by omega)]
    refine ⟨_, heq, rfl, rfl, ?_, ?_⟩
    · show (ls.take (min ls.length vs.length)).length = min ls.length vs.length
      rw [List.length_take]
      omega
    · show (vs.take (min ls.length vs.length)).length = min ls.length vs.length
      rw [List.length_take]
      omega
  · intro h0
    rw [key c, hl, hv]
    show (if min ls.length vs.length = 0 then none else some _) = none
    rw [if_pos h0]
  · intro c2 hc2
    rcases hc2 with h | h
    · rw [key c2, h]
    · cases hll : c2.labels with
      | arr l2 => rw [key c2, hll, h]
      | notArr => rw [key c2, hll]

/-- Witness for C2 (amended) at a concrete chart. -/
theorem C2_chart_pairs_witness :
    ∃ r, renderChart (some ⟨some "bar", JsArr.arr ["a", "b"], JsArr.arr [1, 2, 3], none⟩)
        = some r ∧ r.labels.length = 2 := by
  obtain ⟨r, hr, _, _, hlen, _⟩ :=
    (C2_chart_pairs ⟨some "bar", JsArr.arr ["a", "b"], JsArr.arr [1, 2, 3], none⟩
      ["a", "b"] [1, 2, 3] rfl rfl).1 (by decide)
  refine ⟨r, hr, ?_⟩
  rw [hlen]
  decide

/-- C5: when the outline's slides field is absent or not an array, the
assembler still produces the title slide plus exactly one fallback slide
whose title text reads "Error: No content generated" in red (FF0000);
and for any outline the deck contains at least the title slide, never
zero slides. -/
theorem C5_missing_slides_fallback (o : Outline) (topic : String) (th : Theme)
    (h : ∀ l, o.slides ≠ SlidesVal.arr l) :
    assembleDeck o topic th = [mkTitleSlide o topic th, errorSlide]
    ∧ (assembleDeck o topic th).length = 2
    ∧ errorSlide.elems = [Elem.text "Error: No content generated" "FF0000" 24 true]
    ∧ (∀ o2 : Outline, 1 ≤ (assembleDeck o2 topic th).length) := by
  have hd : assembleDeck o topic th = [mkTitleSlide o topic th, errorSlide] := by
    unfold assembleDeck
    cases hs : o.slides with
    | arr l => exact absurd hs (h l)
    | absent => rfl
    | nonArray => rfl
  refine ⟨hd, by rw [hd]; rfl, rfl, ?_⟩
  intro o2
  show 1 ≤ (mkTitleSlide o2 topic th :: _).length
  simp

/-- Witness for C5 at a concrete outline with absent slides. -/
theorem C5_missing_slides_fallback_witness :
    assembleDeck ⟨some "T", SlidesVal.absent⟩ "topic" blueTheme
      = [mkTitleSlide ⟨some "T", SlidesVal.absent⟩ "topic" blueTheme, errorSlide] :=
  (C5_missing_slides_fallback ⟨some "T", SlidesVal.absent⟩ "topic" blueTheme
    (fun l hl => by cases hl)).1

/-! ## Request handler (route.js 158-190, 427-748) -/

/-- The per-slide enrichment loop (route.js 456-471): entry `i` is
enhanced with the collaborator's behavior `fetches i`; non-object
entries pass through (on a primitive the property write is ignored, on
`null` the per-slide `catch` at route.js 467 swallows the throw). -/
def enhanceEntriesFrom (fetches : Nat → FetchOutcome) :
    List SlideEntry → Nat → List SlideEntry
  | [], _ => []
  | e :: rest, i =>
    (match e with
     | .obj s => SlideEntry.obj (enhanceSlideWithImage s (fetches i))
     | x => x) :: enhanceEntriesFrom fetches rest (i + 1)

/-- Enrichment over the outline: runs only when `slides` is an array
(route.js 456). -/
def enhanceOutline (o : Outline) (fetches : Nat → FetchOutcome) : Outline :=
  match o.slides with
  | .arr l => { o with slides := .arr (enhanceEntriesFrom fetches l 0) }
  | _ => o

/-- `validateInput` (route.js 158-190). Every check other than the topic
check guards on the truthiness of the value, so falsy values (absent,
`""`, `0`) are never validated. -/
def validateInput (topic : Option String) (slideCount : Option Int)
    (presentationStyle audienceLevel colorTheme : Option String) : List String :=
  (if (match topic with
       | none => true
       | some t => t == "" || (jsTrim t).length < 3) then
     ["Topic must be at least 3 characters long"] else [])
  ++ (if (match topic with
          | none => false
          | some t => t != "" && t.length > 200) then
        ["Topic must be less than 200 characters"] else [])
  ++ (if (match slideCount with
          | none => false
          | some n => n != 0 && !(n == 3 || n == 5 || n == 7 || n == 10)) then
        ["Slide count must be 3, 5, 7, or 10"] else [])
  ++ (if (match presentationStyle with
          | none => false
          | some s => s != ""
              && !(["professional", "casual", "academic", "creative"].contains s)) then
        ["Invalid presentation style"] else [])
  ++ (if (match audienceLevel with
          | none => false
          | some s => s != "" && !(["beginner", "general", "expert"].contains s)) then
        ["Invalid audience level"] else [])
  ++ (if (match colorTheme with
          | none => false
          | some s => s != ""
              && !(["blue", "green", "purple", "red", "orange", "teal", "gray"].contains s))
      then ["Invalid color theme"] else [])

/-- The request body fields read by the handler (route.js 433). -/
structure ReqBody where
  topic : Option String
  slideCount : Option Int
  presentationStyle : Option String
  audienceLevel : Option String
  includeConclusion : Option Bool
  colorTheme : Option String
  deriving DecidableEq

/-- The defaulted options (route.js 442-448). -/
structure Options where
  slideCount : Int
  presentationStyle : String
  audienceLevel : String
  includeConclusion : Bool
  colorTheme : String
  deriving DecidableEq

/-- `||`-defaults for falsy fields; `includeConclusion !== false`. -/
def mkOptions (r : ReqBody) : Options :=
  { slideCount := match r.slideCount with
      | some n => if n = 0 then 5 else n
      | none => 5
    presentationStyle := jsOrStr r.presentationStyle "professional"
    audienceLevel := jsOrStr r.audienceLevel "general"
    includeConclusion := !(r.includeConclusion == some false)
    colorTheme := jsOrStr r.colorTheme "blue" }

/-- The handler's terminal behaviors: a deck streamed back, a 400
validation response, or an error passed to the error middleware. -/
inductive HandlerResult where
  | ok (deck : List BuiltSlide)
  | badRequest (msg : String)
  | failure (msg : String)
  deriving DecidableEq

/-- The POST handler (route.js 427-748): validate, default the options,
generate the outline (failures go to the error middleware via
`next(err)`), enhance the slides, resolve the theme, assemble the deck. -/
def handleRequest (r : ReqBody) (llm : Nat → LlmAttempt) (fetches : Nat → FetchOutcome) :
    HandlerResult :=
  let errs := validateInput r.topic r.slideCount r.presentationStyle r.audienceLevel
    r.colorTheme
  if errs ≠ [] then .badRequest (String.intercalate ", " errs)
  else
    match r.topic with
    | none => .failure "TypeError: cannot read trim of undefined"
    | some t =>
      let opts := mkOptions r
      match getPresentationOutline llm opts.slideCount.toNat (jsTrim t) with
      | (.error m, _) => .failure m
      | (.ok outline, _) =>
        .ok (assembleDeck (enhanceOutline outline fetches) t (resolveTheme opts.colorTheme))

theorem enhanceEntriesFrom_length (f : Nat → FetchOutcome) :
    ∀ (l : List SlideEntry) (i : Nat), (enhanceEntriesFrom f l i).length = l.length := by
  intro l
  induction l with
  | nil => intro i; rfl
  | cons e rest ih =>
    intro i
    simp only [enhanceEntriesFrom, List.length_cons]
    rw [ih (i + 1)]

theorem enhanceEntriesFrom_allObj (f : Nat → FetchOutcome) :
    ∀ (l : List SlideEntry) (i : Nat), (∀ e ∈ l, ∃ s, e = SlideEntry.obj s) →
      ∀ e ∈ enhanceEntriesFrom f l i, ∃ s, e = SlideEntry.obj s := by
  intro l
  induction l with
  | nil => intro i _ e he; cases he
  | cons a rest ih =>
    intro i h e he
    obtain ⟨s, rfl⟩ := h a (by simp)
    rcases List.mem_cons.mp he with rfl | hm
    · exact ⟨_, rfl⟩
    · exact ih (i + 1) (fun x hx => h x (by simp [hx])) e hm

theorem enhanceOutline_arr (o : Outline) (f : Nat → FetchOutcome) (l : List SlideEntry)
    (h : o.slides = .arr l) :
    (enhanceOutline o f).slides = .arr (enhanceEntriesFrom f l 0) := by
  unfold enhanceOutline
  rw [h]

theorem assembleDeck_arr (o : Outline) (l : List SlideEntry) (tpc : String) (th : Theme)
    (h : o.slides = .arr l) :
    assembleDeck o tpc th = mkTitleSlide o tpc th :: contentSlides l th := by
  unfold assembleDeck
  rw [h]

theorem contentSlidesFrom_length_allObj (th : Theme) :
    ∀ (l : List SlideEntry) (i : Nat), (∀ e ∈ l, ∃ s, e = SlideEntry.obj s) →
      (contentSlidesFrom th l i).length = l.length := by
  intro l
  induction l with
  | nil => intro i _; rfl
  | cons e rest ih =>
    intro i h
    obtain ⟨s, rfl⟩ := h e (by simp)
    simp only [contentSlidesFrom, List.length_cons]
    rw [ih (i + 1) (fun x hx => h x (by simp [hx]))]

theorem adjustSlideCount_allObj (l : List SlideEntry) (N : Nat) (tp : String)
    (h : ∀ e ∈ l, ∃ s, e = SlideEntry.obj s) :
    ∀ e ∈ adjustSlideCount l N tp, ∃ s, e = SlideEntry.obj s := by
  intro e he
  rcases Nat.lt_or_ge l.length N with hlt | hge
  · rw [(adjustSlideCount_spec l N tp).2.2 hlt] at he
    rcases List.mem_append.mp he with hm | hm
    · exact h e hm
    · obtain ⟨k, _, hk⟩ := List.mem_map.mp hm
      exact ⟨_, hk.symm⟩
  · rw [(adjustSlideCount_spec l N tp).2.1 hge] at he
    exact h e (List.take_subset _ _ he)

theorem repairSlides_allObj (l : List SlideEntry)
    (h : ∀ e ∈ l, ∃ s, e = SlideEntry.obj s) :
    ∃ l2, repairSlides l = .ok l2 ∧ l2.length = l.length
      ∧ ∀ e ∈ l2, ∃ s, e = SlideEntry.obj s := by
  induction l with
  | nil => exact ⟨[], rfl, rfl, by simp⟩
  | cons e rest ih =>
    obtain ⟨s, rfl⟩ := h e (by simp)
    obtain ⟨l2, hl2, hlen, hobj⟩ := ih (fun x hx => h x (by simp [hx]))
    refine ⟨SlideEntry.obj { s with bulletPoints := repairBulletField s.bulletPoints } :: l2,
            ?_, by simp [hlen], ?_⟩
    · simp only [repairSlides, repairEntry, hl2]
    · intro x hx
      rcases List.mem_cons.mp hx with rfl | hm
      · exact ⟨_, rfl⟩
      · exact hobj x hm

theorem processParsed_allObj (p : Outline) (l : List SlideEntry) (N : Nat) (tp : String)
    (hsl : p.slides = .arr l) (h : ∀ e ∈ l, ∃ s, e = SlideEntry.obj s) :
    ∃ l2, processParsed p N tp = .ok ⟨p.title, .arr l2⟩
      ∧ l2.length = N ∧ ∀ e ∈ l2, ∃ s, e = SlideEntry.obj s := by
  obtain ⟨l2, hrep, hlen, hobj⟩ :=
    repairSlides_allObj (adjustSlideCount l N tp) (adjustSlideCount_allObj l N tp h)
  refine ⟨l2, ?_, ?_, hobj⟩
  · unfold processParsed
    rw [hsl]
    show (Except.mapError (fun m => ({ status := none, msg := m } : JsError))
        (Except.map (fun l2 => { title := p.title, slides := SlidesVal.arr l2 : Outline })
          (repairSlides (adjustSlideCount l N tp)))) = _
    rw [hrep]
    rfl
  · rw [hlen, (adjustSlideCount_spec l N tp).1]

/-- C9: a parsed outline without a slides array never yields an outline —
the `forEach` dereference throws, the throw is converted to the
parse-failure message and wrapped immediately with no retry; any
successful generation carries a slides array, enrichment preserves it,
and the assembler then takes the content branch — so the missing-slides
fallback slide is unreachable from LLM output. -/
theorem C9_fallback_unreachable (responses : Nat → LlmAttempt) (sc : Nat) (tp : String) :
    (∀ p, responses 0 = .textResp (.parsed p) → (∀ l, p.slides ≠ .arr l) →
       getPresentationOutline responses sc tp
         = (.error (genErrMsg (genErrMsg parseFailMsg)), []))
    ∧ (∀ o d, getPresentationOutline responses sc tp = (.ok o, d) →
        ∃ l, o.slides = .arr l)
    ∧ (∀ (o : Outline) (f : Nat → FetchOutcome) (tpc : String) (th : Theme)
         (l : List SlideEntry), o.slides = .arr l →
        ∃ l2, (enhanceOutline o f).slides = .arr l2
          ∧ assembleDeck (enhanceOutline o f) tpc th
              = mkTitleSlide (enhanceOutline o f) tpc th :: contentSlides l2 th) := by
  have htb : ∀ p, (∀ l, p.slides ≠ SlidesVal.arr l) →
      tryBody (.textResp (.parsed p)) sc tp = .error ⟨none, parseFailMsg⟩ := by
    intro p hp
    show Except.mapError (fun _ => (⟨none, parseFailMsg⟩ : JsError))
        (processParsed p sc tp) = .error ⟨none, parseFailMsg⟩
    unfold processParsed
    cases hs : p.slides with
    | arr l => exact absurd hs (hp l)
    | absent => rfl
    | nonArray => rfl
  refine ⟨?_, ?_, ?_⟩
  · intro p h0 hp
    rcases getPresentationOutline_cases responses sc tp with
      ⟨o, hcase, hg⟩ | ⟨e, hcase, hs, hg⟩ | ⟨e, hcase, hs, hrest⟩
    · rw [h0, htb p hp] at hcase
      cases hcase
    · rw [h0, htb p hp] at hcase
      cases hcase
      exact hg
    · rw [h0, htb p hp] at hcase
      cases hcase
      cases hs
  · intro o d hok
    rcases getPresentationOutline_cases responses sc tp with
      ⟨o1, hcase, hg⟩ | ⟨e, hcase, hs, hg⟩ | ⟨e, hcase, hs, hrest⟩
    · rw [hg] at hok
      obtain ⟨rfl, rfl⟩ := Prod.mk.injEq .. ▸ And.intro (congrArg Prod.fst hok)
        (congrArg Prod.snd hok)
      exact tryBody_ok_slides_arr _ sc tp _ hcase
    · rw [hg] at hok
      cases hok
    · rcases hrest with ⟨o1, h1, hg⟩ | ⟨e1, h1, hs1, hg⟩ | ⟨e1, h1, hs1, hin⟩
      · rw [hg] at hok
        cases hok
        exact tryBody_ok_slides_arr _ sc tp _ h1
      · rw [hg] at hok
        cases hok
      · rcases hin with ⟨o2, h2, hg⟩ | ⟨e2, h2, hg⟩
        · rw [hg] at hok
          cases hok
          exact tryBody_ok_slides_arr _ sc tp _ h2
        · rw [hg] at hok
          cases hok
  · intro o f tpc th l harr
    refine ⟨enhanceEntriesFrom f l 0, enhanceOutline_arr o f l harr, ?_⟩
    exact assembleDeck_arr _ _ tpc th (enhanceOutline_arr o f l harr)

/-- Witness for C9: a parsed object with absent slides fails generation
immediately with the wrapped parse-failure message. -/
theorem C9_fallback_unreachable_witness :
    getPresentationOutline
        (fun _ => LlmAttempt.textResp (.parsed ⟨none, SlidesVal.absent⟩)) 5 "t"
      = (.error (genErrMsg (genErrMsg parseFailMsg)), []) :=
  (C9_fallback_unreachable
      (fun _ => LlmAttempt.textResp (.parsed ⟨none, SlidesVal.absent⟩)) 5 "t").1
    ⟨none, SlidesVal.absent⟩ rfl (fun l hl => by cases hl)

/-- C10: `validateInput` reports no error for falsy `slideCount` (0
included) and falsy style/audience/theme; the handler substitutes the
defaults (5, professional, general, includeConclusion true, blue), so a
request with slideCount 0 yields a deck of 1 title + 5 content slides
rather than a validation error. -/
theorem C10_falsy_defaults (r : ReqBody) (t : String)
    (htopic : r.topic = some t) (ht0 : t ≠ "") (ht1 : 3 ≤ (jsTrim t).length)
    (ht2 : t.length ≤ 200)
    (hsc : r.slideCount = some 0) (hps : r.presentationStyle = none)
    (hal : r.audienceLevel = none) (hct : r.colorTheme = none)
    (hic : r.includeConclusion = none) :
    validateInput r.topic r.slideCount r.presentationStyle r.audienceLevel r.colorTheme
        = []
    ∧ mkOptions r = ⟨5, "professional", "general", true, "blue"⟩
    ∧ (∀ (llm : Nat → LlmAttempt) (fetches : Nat → FetchOutcome) (p : Outline)
         (l : List SlideEntry),
        llm 0 = .textResp (.parsed p) → p.slides = .arr l →
        (∀ e ∈ l, ∃ s, e = SlideEntry.obj s) →
        ∃ deck, handleRequest r llm fetches = .ok deck ∧ deck.length = 6) := by
  obtain ⟨rt, rsc, rps, ral, ric, rct⟩ := r
  simp only at htopic hsc hps hal hct hic
  subst htopic; subst hsc; subst hps; subst hal; subst hct; subst hic
  have hval : validateInput (some t) (some 0) none none none = [] := by
    unfold validateInput
    simp [ht0, Nat.not_lt.mpr ht1, Nat.not_lt.mpr ht2]
  have hopts : mkOptions ⟨some t, some 0, none, none, none, none⟩
      = ⟨5, "professional", "general", true, "blue"⟩ := rfl
  refine ⟨hval, hopts, ?_⟩
  intro llm fetches p l hllm hsl hobj
  obtain ⟨l2, hpp, hlen2, hobj2⟩ := processParsed_allObj p l 5 (jsTrim t) hsl hobj
  have htb : tryBody (llm 0) 5 (jsTrim t) = .ok ⟨p.title, SlidesVal.arr l2⟩ := by
    rw [hllm]
    show Except.mapError (fun _ => (⟨none, parseFailMsg⟩ : JsError))
        (processParsed p 5 (jsTrim t)) = .ok ⟨p.title, SlidesVal.arr l2⟩
    rw [hpp]
    rfl
  have hgp : getPresentationOutline llm 5 (jsTrim t)
      = (.ok ⟨p.title, SlidesVal.arr l2⟩, []) := by
    simp [getPresentationOutline, outlineAttempts, htb]
  have hhr : handleRequest ⟨some t, some 0, none, none, none, none⟩ llm fetches
      = .ok (assembleDeck (enhanceOutline ⟨p.title, SlidesVal.arr l2⟩ fetches) t
          (resolveTheme "blue")) := by
    unfold handleRequest
    rw [hval]
    simp only [ne_eq, not_true_eq_false, if_false, hopts]
    show (match getPresentationOutline llm ((5 : Int)).toNat (jsTrim t) with
          | (.error m, _) => HandlerResult.failure m
          | (.ok outline, _) =>
            .ok (assembleDeck (enhanceOutline outline fetches) t (resolveTheme "blue")))
        = _
    rw [show ((5 : Int)).toNat = 5 from rfl, hgp]
  have henh := enhanceOutline_arr ⟨p.title, SlidesVal.arr l2⟩ fetches l2 rfl
  refine ⟨_, hhr, ?_⟩
  rw [assembleDeck_arr _ _ t (resolveTheme "blue") henh]
  show (contentSlides (enhanceEntriesFrom fetches l2 0) (resolveTheme "blue")).length + 1
      = 6
  unfold contentSlides
  rw [contentSlidesFrom_length_allObj _ _ 0
      (enhanceEntriesFrom_allObj fetches l2 0 hobj2),
    enhanceEntriesFrom_length, hlen2]

/-- Witness for C10: a concrete request with slideCount 0 and an LLM
returning an empty slides array still yields a 6-slide deck. -/
theorem C10_falsy_defaults_witness :
    ∃ deck, handleRequest ⟨some "Climate Change", some 0, none, none, none, none⟩
        (fun _ => LlmAttempt.textResp (.parsed ⟨none, SlidesVal.arr []⟩))
        (fun _ => FetchOutcome.noResult) = .ok deck ∧ deck.length = 6 :=
  (C10_falsy_defaults ⟨some "Climate Change", some 0, none, none, none, none⟩
      "Climate Change" rfl (by decide) (by decide) (by decide) rfl rfl rfl rfl rfl).2.2
    _ _ ⟨none, SlidesVal.arr []⟩ [] rfl rfl (by simp)

end AutoPPT
